import Mathlib

/-!
Verification development for the HIVE worker daemon (worker-daemon.py,
tools.py, backends.py).

The Python sources are shallowly embedded: pure control flow is translated
directly; the effectful parts (file system, subprocess, network, regex
engine) are parameterized by an `Env` oracle whose fields stand for the
outcome of the corresponding Python calls.  Python dict-shaped content
blocks are modelled by a record of optional fields (`Block`), matching a
dict that may or may not carry each key.  Python exceptions are modelled by
`PyError`, distinguishing the typed `ToolExecutionError` from other
exception classes (`AttributeError`, `TypeError`) that the code can let
escape.
-/

/-- JSON-like scalar values appearing in tool inputs and results
(tools.py passes `tool_input: Dict[str, Any]`). -/
inductive JVal
  | str (s : String)
  | num (n : Int)
  | bool (b : Bool)
  | null
deriving Repr, DecidableEq

/-- Python `str(v)` for the modelled scalar values. -/
def JVal.pyStr : JVal → String
  | .str s => s
  | .num n => toString n
  | .bool b => if b then "True" else "False"
  | .null => "None"

/-- Python type name of a value, used in `AttributeError` messages. -/
def JVal.pyType : JVal → String
  | .str _ => "str"
  | .num _ => "int"
  | .bool _ => "bool"
  | .null => "NoneType"

/-- A tool input mapping (`tool_input` dict). -/
abbrev ToolInput := List (String × JVal)

/-- `tool_input.get(key, default)`. -/
def ToolInput.getD (input : ToolInput) (key : String) (default : JVal) : JVal :=
  match input.find? (fun e => e.1 = key) with
  | some e => e.2
  | none => default

/-- The three Python result shapes a tool handler returns: `str`, `dict`,
or `list` (worker-daemon.py lines 319-329 dispatch on `isinstance`). -/
inductive ToolValue
  | str (s : String)
  | dict (entries : List (String × JVal))
  | list (items : List JVal)
deriving Repr, DecidableEq

/-- Python exceptions relevant to the tool layer: the typed
`ToolExecutionError`, plus the untyped exception classes that concretely
escape the handlers (`AttributeError` from `.startswith` on a non-string,
`TypeError` from `re.compile` on a non-string). -/
inductive PyError
  | toolExecutionError (msg : String)
  | attributeError (msg : String)
  | typeError (msg : String)
deriving Repr, DecidableEq

def PyError.message : PyError → String
  | .toolExecutionError m => m
  | .attributeError m => m
  | .typeError m => m

/-- `true` iff the result is a success or the single typed tool failure:
exactly the outcomes the executor contract in the design allows. -/
def isOkOrTEE : Except PyError ToolValue → Bool
  | .ok _ => true
  | .error (.toolExecutionError _) => true
  | .error _ => false

/-- A content block as the daemon sees it: a Python dict with a `type` key
and an optional set of further keys (text, id, name, input, tool_use_id,
content, is_error).  A missing key is `none`. -/
structure Block where
  ty : String
  text : Option String := none
  id : Option String := none
  name : Option String := none
  input : Option ToolInput := none
  toolUseId : Option String := none
  content : Option String := none
  isError : Option Bool := none
deriving Repr, DecidableEq

/-- Serialization of a scalar, standing for `json.dumps` of a leaf. -/
def JVal.dump : JVal → String
  | .str s => "\"" ++ s ++ "\""
  | .num n => toString n
  | .bool b => if b then "true" else "false"
  | .null => "null"

/-- Stands for `json.dumps` of a dict (`indent=2` whitespace not modelled;
no claim depends on the exact serialized text). -/
def dumpEntries (es : List (String × JVal)) : String :=
  "\x7b" ++ String.intercalate ", " (es.map (fun e => "\"" ++ e.1 ++ "\": " ++ e.2.dump)) ++ "\x7d"

/-- Stands for `json.dumps` of a list. -/
def dumpItems (xs : List JVal) : String :=
  "[" ++ String.intercalate ", " (xs.map JVal.dump) ++ "]"

/-- worker-daemon.py lines 318-329: serialize a tool result to the text
placed in the `tool_result` block.  Dicts are dumped; lists are capped at
10 items with a truncation note; anything else goes through `str`. -/
def formatToolValue : ToolValue → String
  | .str s => s
  | .dict es => dumpEntries es
  | .list xs =>
      if xs.length = 0 then "No results found"
      else
        dumpItems (xs.take 10) ++
          (if 10 < xs.length then "\n... and " ++ toString (xs.length - 10) ++ " more" else "")

/-! ## Tool executor (tools.py) -/

/-- Outcome of `subprocess.run` inside `Tools.bash` (tools.py 176-184):
a completed process, a `subprocess.TimeoutExpired`, or some other raised
exception. -/
inductive BashOutcome
  | done (stdout stderr : String) (code : Int)
  | timedOut
  | exc (msg : String)
deriving Repr, DecidableEq

/-- Oracle for the effectful parts of tools.py.  Each field stands for the
outcome of the corresponding Python call at the given arguments; the
`...Try` fields summarize a whole `try:` body whose internals do pure IO
(open/read/write/subprocess), returning either the body's value or the
message of the exception it raised. -/
structure Env where
  workspace : String
  agentId : String
  /-- `os.path.exists` -/
  pathExists : String → Bool
  /-- `os.path.isfile` -/
  isFile : String → Bool
  /-- body of `Tools.read`'s try (tools.py 57-76): open, readlines, slice
  by offset/limit, format with line numbers; or the raised exception. -/
  readTry : String → JVal → JVal → Except String String
  /-- body of `Tools.edit`'s try (tools.py 103-127); the body itself can
  raise `ToolExecutionError` (string absent / not unique), which
  `except ToolExecutionError: raise` re-raises unchanged. -/
  editTry : String → JVal → JVal → JVal → Except PyError String
  /-- body of `Tools.write`'s try: makedirs + open + write (tools.py
  151-157); the success message is computed below. -/
  writeTry : String → Except String Unit
  /-- `subprocess.run(command, shell=True, ..., timeout=timeout)` -/
  bashRun : JVal → JVal → BashOutcome
  /-- `re.compile(pattern, flags)` on a string pattern: `.ok` or the
  `re.error` message (tools.py 225-228). -/
  compileRegex : String → Except String Unit
  /-- `glob.glob(search_pattern, recursive=True)` filtered by
  `os.path.isfile` (tools.py 237-238). -/
  globFiles : String → List String
  /-- per-file scan of `Tools.grep`'s inner loop (tools.py 242-259): the
  match records produced for one file under the given pattern; unreadable
  files yield `[]` (the inner `except Exception: continue`).  Flags and
  context lines are folded into the oracle. -/
  scanFile : String → String → List JVal
  /-- body of `Tools.glob`'s try (tools.py 283-289): glob + relpath
  mapping, or the raised exception. -/
  globTry : String → Except String (List String)
  hiveAssignTry : JVal → JVal → JVal → JVal → Except String ToolValue
  hiveStatusTry : Except String ToolValue
  hiveFailedTry : Except String ToolValue
  hiveConfigTry : JVal → JVal → Except String String
  hiveMyTasksTry : Except String ToolValue
  hiveTakeTaskTry : Except String ToolValue
  hiveTaskDoneTry : JVal → Except String ToolValue
  hiveTaskFailedTry : JVal → Except String ToolValue

/-- `os.path.join(a, b)` for a relative second component. -/
def joinPath (a b : String) : String := a ++ "/" ++ b

/-- tools.py 45-49 (and the identical prologue of edit/write/grep/glob):
a relative path is resolved against the workspace, an absolute path is
used verbatim. -/
def resolvePath (workspace p : String) : String :=
  if p.startsWith "/" then p else joinPath workspace p

/-- `AttributeError` raised by `v.startswith(...)` (or `.get`) when `v` is
not a string: the message Python produces is
`'<type>' object has no attribute '<attr>'` (modelled without quotes). -/
def noAttr (v : JVal) (attr : String) : PyError :=
  .attributeError (v.pyType ++ " object has no attribute " ++ attr)

/-- `Tools.read` (tools.py 33-79).  The path prologue and existence checks
are outside the `try`, so a non-string `file_path` raises an uncaught
`AttributeError`; everything inside the `try` is wrapped into
`ToolExecutionError`. -/
def Tools.read (env : Env) (filePath offset limit : JVal) : Except PyError ToolValue :=
  match filePath with
  | .str fp =>
      if ¬ env.pathExists (resolvePath env.workspace fp) then
        .error (.toolExecutionError ("File not found: " ++ fp))
      else if ¬ env.isFile (resolvePath env.workspace fp) then
        .error (.toolExecutionError ("Not a file: " ++ fp))
      else
        match env.readTry (resolvePath env.workspace fp) offset limit with
        | .ok s => .ok (.str s)
        | .error m => .error (.toolExecutionError ("Error reading " ++ fp ++ ": " ++ m))
  | v => .error (noAttr v "startswith")

/-- `Tools.edit` (tools.py 81-132).  `except ToolExecutionError: raise`
passes the typed error through; any other exception is wrapped. -/
def Tools.edit (env : Env) (filePath oldString newString replaceAll : JVal) :
    Except PyError ToolValue :=
  match filePath with
  | .str fp =>
      if ¬ env.pathExists (resolvePath env.workspace fp) then
        .error (.toolExecutionError ("File not found: " ++ fp))
      else
        match env.editTry (resolvePath env.workspace fp) oldString newString replaceAll with
        | .ok s => .ok (.str s)
        | .error (.toolExecutionError m) => .error (.toolExecutionError m)
        | .error e => .error (.toolExecutionError ("Error editing " ++ fp ++ ": " ++ e.message))
  | v => .error (noAttr v "startswith")

/-- `Tools.write` (tools.py 134-162).  A non-string `content` makes
`f.write(content)` raise inside the `try`, hence a wrapped typed error. -/
def Tools.write (env : Env) (filePath content : JVal) : Except PyError ToolValue :=
  match filePath with
  | .str fp =>
      match env.writeTry (resolvePath env.workspace fp) with
      | .error m => .error (.toolExecutionError ("Error writing " ++ fp ++ ": " ++ m))
      | .ok _ =>
          match content with
          | .str c =>
              .ok (.str ("✓ Wrote " ++ toString c.length ++ " bytes to " ++ fp))
          | _ => .error (.toolExecutionError
              ("Error writing " ++ fp ++ ": write argument must be str"))
  | v => .error (noAttr v "startswith")

/-- `Tools.bash` (tools.py 164-196): the whole body is inside the `try`;
a `TimeoutExpired` becomes the typed timeout failure, any other exception
is wrapped; a completed process yields the stdout/stderr/exit_code/success
dict. -/
def Tools.bash (env : Env) (command timeout : JVal) : Except PyError ToolValue :=
  match env.bashRun command timeout with
  | .done out err code =>
      .ok (.dict [("stdout", .str out), ("stderr", .str err),
                  ("exit_code", .num code), ("success", .bool (code == 0))])
  | .timedOut =>
      .error (.toolExecutionError
        ("Command timed out after " ++ timeout.pyStr ++ "s: " ++ command.pyStr))
  | .exc m => .error (.toolExecutionError ("Error executing command: " ++ m))

/-- `Tools.grep` (tools.py 198-261).  The path prologue, the existence
check, `re.compile` (catching only `re.error`), and the glob join are all
outside any catch-all, so a non-string `path` raises `AttributeError` and
a non-string `pattern` or `glob_pattern` raises `TypeError`; the per-file
scan loop swallows its own errors.  At most 100 files are scanned and at
most 50 matches returned. -/
def Tools.grep (env : Env) (pattern path globPattern caseInsensitive contextLines : JVal) :
    Except PyError ToolValue :=
  match path with
  | .str p =>
      if ¬ env.pathExists (resolvePath env.workspace p) then
        .error (.toolExecutionError ("Path not found: " ++ p))
      else
        match pattern with
        | .str pat =>
            match env.compileRegex pat with
            | .error m => .error (.toolExecutionError ("Invalid regex pattern: " ++ m))
            | .ok _ =>
                if env.isFile (resolvePath env.workspace p) then
                  .ok (.list ((([resolvePath env.workspace p].take 100).flatMap
                    (env.scanFile pat)).take 50))
                else
                  match globPattern with
                  | .str g =>
                      .ok (.list ((((env.globFiles (joinPath
                        (joinPath (resolvePath env.workspace p) "**") g)).take 100).flatMap
                        (env.scanFile pat)).take 50))
                  | v => .error (.typeError
                      ("join argument must be str, not " ++ v.pyType))
          | v => .error (.typeError
              ("first argument must be string or compiled pattern, not " ++ v.pyType))
  | v => .error (noAttr v "startswith")

/-- `Tools.glob` (tools.py 263-292): the path prologue and existence check
are outside the `try`; the join/glob/relpath/sort body is wrapped into the
typed error on any exception.  Results are sorted and capped at 100. -/
def Tools.glob (env : Env) (pattern path : JVal) : Except PyError ToolValue :=
  match path with
  | .str p =>
      if ¬ env.pathExists (resolvePath env.workspace p) then
        .error (.toolExecutionError ("Path not found: " ++ p))
      else
        match pattern with
        | .str g =>
            match env.globTry (joinPath (resolvePath env.workspace p) g) with
            | .ok files =>
                .ok (.list (((files.mergeSort (fun a b => a ≤ b)).take 100).map JVal.str))
            | .error m => .error (.toolExecutionError ("Error globbing " ++ g ++ ": " ++ m))
        | v => .error (.toolExecutionError
            ("Error globbing " ++ v.pyStr ++ ": join argument must be str"))
  | v => .error (noAttr v "startswith")

/-- Wraps a HIVE coordination tool body: its `except Exception` turns any
raised exception into the typed error `Error in <name>: <msg>`
(tools.py, each `hive_*` handler). -/
def hiveWrap (toolName : String) (body : Except String ToolValue) : Except PyError ToolValue :=
  match body with
  | .ok v => .ok v
  | .error m => .error (.toolExecutionError ("Error in " ++ toolName ++ ": " ++ m))

/-- The `AGENT_ID not set` precheck of the worker-side HIVE tools
(tools.py 441-442, 470-471, 517-518, 556-557). -/
def requireAgent (env : Env) (body : Except PyError ToolValue) : Except PyError ToolValue :=
  if env.agentId = "" then
    .error (.toolExecutionError "AGENT_ID not set (not running as worker)")
  else body

def Tools.hiveAssign (env : Env) (droneId title description jiraTicket : JVal) :
    Except PyError ToolValue :=
  hiveWrap "hive_assign" (env.hiveAssignTry droneId title description jiraTicket)

def Tools.hiveStatus (env : Env) : Except PyError ToolValue :=
  hiveWrap "hive_status" env.hiveStatusTry

def Tools.hiveFailed (env : Env) : Except PyError ToolValue :=
  hiveWrap "hive_failed" env.hiveFailedTry

def Tools.hiveConfig (env : Env) (key default : JVal) : Except PyError ToolValue :=
  match env.hiveConfigTry key default with
  | .ok s => .ok (.str s)
  | .error m => .error (.toolExecutionError ("Error in hive_config: " ++ m))

def Tools.hiveMyTasks (env : Env) : Except PyError ToolValue :=
  requireAgent env (hiveWrap "hive_my_tasks" env.hiveMyTasksTry)

def Tools.hiveTakeTask (env : Env) : Except PyError ToolValue :=
  requireAgent env (hiveWrap "hive_take_task" env.hiveTakeTaskTry)

def Tools.hiveTaskDone (env : Env) (result : JVal) : Except PyError ToolValue :=
  requireAgent env (hiveWrap "hive_task_done" (env.hiveTaskDoneTry result))

def Tools.hiveTaskFailed (env : Env) (error : JVal) : Except PyError ToolValue :=
  requireAgent env (hiveWrap "hive_task_failed" (env.hiveTaskFailedTry error))

/-- `Tools.execute_tool` (tools.py 582-663): name dispatch, extracting each
parameter with `tool_input.get(key, default)` (`.get` with no default is
`None`), falling through to the typed `Unknown tool` error. -/
def Tools.executeTool (env : Env) (toolName : String) (input : ToolInput) :
    Except PyError ToolValue :=
  if toolName = "read" then
    Tools.read env (input.getD "file_path" (.str ""))
      (input.getD "offset" (.num 0)) (input.getD "limit" .null)
  else if toolName = "edit" then
    Tools.edit env (input.getD "file_path" (.str "")) (input.getD "old_string" (.str ""))
      (input.getD "new_string" (.str "")) (input.getD "replace_all" (.bool false))
  else if toolName = "write" then
    Tools.write env (input.getD "file_path" (.str "")) (input.getD "content" (.str ""))
  else if toolName = "bash" then
    Tools.bash env (input.getD "command" (.str "")) (input.getD "timeout" (.num 120))
  else if toolName = "grep" then
    Tools.grep env (input.getD "pattern" (.str "")) (input.getD "path" (.str "."))
      (input.getD "glob" (.str "*")) (input.getD "case_insensitive" (.bool false))
      (input.getD "context_lines" (.num 0))
  else if toolName = "glob" then
    Tools.glob env (input.getD "pattern" (.str "*")) (input.getD "path" (.str "."))
  else if toolName = "hive_assign" then
    Tools.hiveAssign env (input.getD "drone_id" (.str "")) (input.getD "title" (.str ""))
      (input.getD "description" (.str "")) (input.getD "jira_ticket" .null)
  else if toolName = "hive_status" then Tools.hiveStatus env
  else if toolName = "hive_failed" then Tools.hiveFailed env
  else if toolName = "hive_config" then
    Tools.hiveConfig env (input.getD "key" (.str "")) (input.getD "default" .null)
  else if toolName = "hive_my_tasks" then Tools.hiveMyTasks env
  else if toolName = "hive_take_task" then Tools.hiveTakeTask env
  else if toolName = "hive_task_done" then
    Tools.hiveTaskDone env (input.getD "result" .null)
  else if toolName = "hive_task_failed" then
    Tools.hiveTaskFailed env (input.getD "error" (.str ""))
  else .error (.toolExecutionError ("Unknown tool: " ++ toolName))

/-- Tools whose dispatch branch reads `tool_input.get(...)`; calling one of
these with `tool_input = None` (as the daemon does for a mangled block)
raises `AttributeError` on `None.get`. -/
def inputReadingTools : List String :=
  ["read", "edit", "write", "bash", "grep", "glob",
   "hive_assign", "hive_config", "hive_task_done", "hive_task_failed"]

/-- The daemon-side call `self.tools.execute_tool(tool_name, tool_input)`
(worker-daemon.py 316) where either argument may be `None` when a content
block lacks the key: a `None` name falls to the `Unknown tool` branch; a
`None` input crashes on `.get` in any branch that reads it. -/
def daemonExecuteTool (env : Env) (toolName : Option String) (input : Option ToolInput) :
    Except PyError ToolValue :=
  match toolName with
  | none => .error (.toolExecutionError "Unknown tool: None")
  | some n =>
      match input with
      | some i => Tools.executeTool env n i
      | none =>
          if n ∈ inputReadingTools then .error (noAttr .null "get")
          else Tools.executeTool env n []

/-! ## Backends (backends.py) -/

/-- Token usage counts. -/
structure Usage where
  inputTokens : Int
  outputTokens : Int
deriving Repr, DecidableEq

/-- A network response of the Anthropic SDK as `AnthropicAPIBackend`
receives it: typed content blocks (a text block has a `text` attribute,
a tool-use block has id/name/input and no `text`), a stop reason and
usage. -/
structure SdkResponse where
  content : List Block
  stopReason : String
  usage : Usage
deriving Repr, DecidableEq

/-- The normalized dict `AnthropicAPIBackend.send_message` builds
(backends.py 95-103). -/
structure ApiResult where
  content : List Block
  stopReason : String
  usage : Usage
deriving Repr, DecidableEq

/-- backends.py 96: `{"type": block.type, "text": getattr(block, "text", "")}`
— every block is reduced to its type plus its `text` attribute (empty when
absent, as on a tool-use block). -/
def anthropicMapBlock (b : Block) : Block :=
  { ty := b.ty, text := some (b.text.getD "") }

/-- `AnthropicAPIBackend.send_message` (backends.py 74-103), as a function
of the network response. -/
def anthropicSendMessage (r : SdkResponse) : ApiResult :=
  { content := r.content.map anthropicMapBlock
    stopReason := r.stopReason
    usage := { inputTokens := r.usage.inputTokens, outputTokens := r.usage.outputTokens } }

/-- The decoded Bedrock response body; each field is `none` when the key is
absent, matching `response_body.get(...)`. -/
structure BedrockBody where
  content : Option (List Block) := none
  stopReason : Option String := none
  usage : Option (List (String × JVal)) := none
deriving Repr, DecidableEq

/-- The dict `BedrockBackend.send_message` returns (backends.py 309-313). -/
structure BedrockResult where
  content : List Block
  stopReason : Option String
  usage : List (String × JVal)
deriving Repr, DecidableEq

/-- `BedrockBackend.send_message` (backends.py 277-313), as a function of
the decoded response body: fields are passed through with defaults
`[]`/`None`/`{}`. -/
def bedrockSendMessage (b : BedrockBody) : BedrockResult :=
  { content := b.content.getD []
    stopReason := b.stopReason
    usage := b.usage.getD [] }

/-- One decoded stream-JSON event of the Claude CLI (backends.py 198-210):
an `assistant` event carrying content blocks, a `result` event carrying a
final text, or any other event type. -/
inductive CliEvent
  | assistant (content : List Block)
  | result (res : String)
  | other (ty : String)
deriving Repr, DecidableEq

/-- One (stripped, nonempty) stdout line of the CLI subprocess: either it
parses as JSON or it is treated as plain-text fallback
(backends.py 189-214). -/
inductive CliLine
  | json (e : CliEvent)
  | plain (s : String)
deriving Repr, DecidableEq

/-- backends.py 184-214: fold of one stdout line into `final_text`.
In an `assistant` event each `text` block overwrites `final_text`; a
nonempty `result` event overwrites it; a non-JSON line is appended with a
newline. -/
def cliProcessLine (finalText : String) : CliLine → String
  | .json (.assistant blocks) =>
      blocks.foldl (fun acc b => if b.ty = "text" then b.text.getD "" else acc) finalText
  | .json (.result r) => if r = "" then finalText else r
  | .json (.other _) => finalText
  | .plain l => finalText ++ l ++ "\n"

/-- The folded `final_text` over the whole stream. -/
def cliFinalText (lines : List CliLine) : String :=
  lines.foldl cliProcessLine ""

/-- The dict `ClaudeCLIBackend.send_message` returns (backends.py 224-231). -/
structure CliResult where
  content : List Block
  stopReason : String
  usage : Usage
deriving Repr, DecidableEq

/-- `ClaudeCLIBackend.send_message` (backends.py 131-235), as a function of
the subprocess's stdout lines and exit code: a nonzero exit raises; a zero
exit always yields a single text block and `stop_reason = "end_turn"`,
with zero-filled usage. -/
def cliSendMessage (lines : List CliLine) (returncode : Int) : Except String CliResult :=
  if returncode ≠ 0 then .error "Claude CLI failed"
  else .ok { content := [{ ty := "text", text := some (cliFinalText lines).trim }]
             stopReason := "end_turn"
             usage := { inputTokens := 0, outputTokens := 0 } }

/-! ## Agent loop (worker-daemon.py `execute_task`) -/

/-- The backend response dict as the agent loop consumes it
(`response['content']`, `response['stop_reason']`; `usage` is never read
by the loop). -/
structure BackendResponse where
  content : List Block
  stopReason : String
deriving Repr, DecidableEq

/-- A conversation message: the initial user message carries a plain
string, later messages carry content-block lists. -/
inductive MessageContent
  | ofString (s : String)
  | blocks (bs : List Block)
deriving Repr, DecidableEq

structure Message where
  role : String
  content : MessageContent
deriving Repr, DecidableEq

/-- An executor as the loop calls it: the daemon passes
`block.get('name')` and `block.get('input')`, either of which may be
missing. -/
abbrev ToolExec := Option String → Option ToolInput → Except PyError ToolValue

/-- worker-daemon.py 299-353: walk the response blocks; for each
`tool_use` block run the executor; a success appends a `tool_result` block
with the serialized value; a `ToolExecutionError` appends a `tool_result`
block with `Error: <msg>` marked `is_error`; any other exception escapes
the per-call `except ToolExecutionError` handler and aborts the whole
iteration (nothing is appended). -/
def toolResultsFor (exec : ToolExec) : List Block → Except PyError (List Block)
  | [] => .ok []
  | b :: bs =>
      if b.ty = "tool_use" then
        match exec b.name b.input with
        | .ok v =>
            (toolResultsFor exec bs).map
              (fun rest =>
                { ty := "tool_result", toolUseId := b.id,
                  content := some (formatToolValue v) } :: rest)
        | .error (.toolExecutionError m) =>
            (toolResultsFor exec bs).map
              (fun rest =>
                { ty := "tool_result", toolUseId := b.id,
                  content := some ("Error: " ++ m), isError := some true } :: rest)
        | .error e => .error e
      else toolResultsFor exec bs

/-- worker-daemon.py 283-292: concatenation of the `text` fields of the
`text` blocks of an `end_turn` response, in order. -/
def concatTexts (blocks : List Block) : String :=
  blocks.foldl (fun acc b => if b.ty = "text" then acc ++ b.text.getD "" else acc) ""

/-- worker-daemon.py 364: `return final_response if final_response else
"Task completed (no summary provided)"`. -/
def finalizeResult (s : String) : String :=
  if s = "" then "Task completed (no summary provided)" else s

/-- Terminal outcome of `execute_task` as `run` observes it: a returned
result string, or a raised exception's message. -/
inductive TaskOutcome
  | completed (result : String)
  | failed (error : String)
deriving Repr, DecidableEq

/-- The error `run` records when the iteration budget trips
(worker-daemon.py 362 wrapped by 366-370). -/
def capErr (maxIterations : Nat) : String :=
  "Execution failed: Max iterations (" ++ toString maxIterations ++ ") reached"

/-- The error produced by the `else` branch at worker-daemon.py 355-358:
the log statement evaluates `response.stop_reason` on a dict, raising
`AttributeError` (Python's message carries quotes around `dict` and
`stop_reason`, elided here), which the outer handler wraps. -/
def unexpectedStopErr : String :=
  "Execution failed: dict object has no attribute stop_reason"

/-- Stands for a transport exception raised by `send_message` itself, which
the outer handler wraps and `run` records; in this model it occurs when the
response oracle is exhausted. -/
def backendRaisedErr : String := "Execution failed: backend error"

/-- Result of one run of the agentic loop: the outcome, the final value of
`iteration`, and the final `messages` list. -/
structure LoopResult where
  outcome : TaskOutcome
  iterations : Nat
  messages : List Message
deriving Repr, DecidableEq

/-- The `while iteration < self.max_iterations` loop of `execute_task`
(worker-daemon.py 262-364), driven by the list of successive backend
responses.  Each iteration appends the assistant message; `end_turn`
breaks out (and then trips the `iteration >= max_iterations` raise when it
arrived exactly at the cap); `tool_use` appends the tool results as one
user message and continues; any other stop reason raises (see
`unexpectedStopErr`); exhausting the cap raises the budget error. -/
def execLoop (exec : ToolExec) (maxIterations : Nat) :
    Nat → List Message → List BackendResponse → LoopResult
  | iteration, messages, [] =>
      if iteration < maxIterations then
        { outcome := .failed backendRaisedErr, iterations := iteration, messages := messages }
      else
        { outcome := .failed (capErr maxIterations), iterations := iteration, messages := messages }
  | iteration, messages, r :: rest =>
      if iteration < maxIterations then
        let it := iteration + 1
        let msgs := messages ++ [{ role := "assistant", content := .blocks r.content }]
        if r.stopReason = "end_turn" then
          if maxIterations ≤ it then
            { outcome := .failed (capErr maxIterations), iterations := it, messages := msgs }
          else
            { outcome := .completed (finalizeResult (concatTexts r.content)),
              iterations := it, messages := msgs }
        else if r.stopReason = "tool_use" then
          match toolResultsFor exec r.content with
          | .ok results =>
              execLoop exec maxIterations it
                (msgs ++ [{ role := "user", content := .blocks results }]) rest
          | .error e =>
              { outcome := .failed ("Execution failed: " ++ e.message),
                iterations := it, messages := msgs }
        else
          { outcome := .failed unexpectedStopErr, iterations := it, messages := msgs }
      else
        { outcome := .failed (capErr maxIterations), iterations := iteration, messages := messages }

/-- `execute_task` (worker-daemon.py 196-370): seed the conversation with
the task's user message and run the loop. -/
def executeTask (exec : ToolExec) (maxIterations : Nat) (userMessage : String)
    (responses : List BackendResponse) : LoopResult :=
  execLoop exec maxIterations 0 [{ role := "user", content := .ofString userMessage }] responses

/-! ## Task lifecycle (worker-daemon.py queue handling and `run`) -/

namespace Hive

/-- A task record; only the identity matters for the lifecycle invariants. -/
structure Task where
  id : String
deriving Repr, DecidableEq

/-- An entry of a Redis list: a JSON payload that either parses to a task
or fails `json.loads` (worker-daemon.py 145-151). -/
inductive Payload
  | task (t : Task)
  | malformed (raw : String)
deriving Repr, DecidableEq

/-- The per-worker Redis state the daemon touches: the queue list, the
active list, and the completed/failed records (the zadd/hset/publish
bookkeeping of `mark_task_*` collapsed to an append). -/
structure WorkerState where
  queue : List Payload
  active : List Payload
  completed : List (Task × String)
  failed : List (Task × String)
deriving Repr, DecidableEq

/-- `mark_task_completed` (worker-daemon.py 156-174): `rpop` the active
list (drop its rightmost entry) and record the completed task. -/
def markTaskCompleted (s : WorkerState) (t : Task) (result : String) : WorkerState :=
  { s with active := s.active.dropLast, completed := s.completed ++ [(t, result)] }

/-- `mark_task_failed` (worker-daemon.py 176-194): `rpop` the active list
and record the failed task with its error text. -/
def markTaskFailed (s : WorkerState) (t : Task) (error : String) : WorkerState :=
  { s with active := s.active.dropLast, failed := s.failed ++ [(t, error)] }

/-- worker-daemon.py 381-387: a returned result marks the task completed,
a raised exception marks it failed. -/
def handleOutcome (s : WorkerState) (t : Task) : TaskOutcome → WorkerState
  | .completed r => markTaskCompleted s t r
  | .failed e => markTaskFailed s t e

/-- Whether the daemon is between tasks or executing one. -/
inductive Mode
  | idle
  | running (t : Task)
deriving Repr, DecidableEq

/-- One atomic operation of the daemon on the queue/active state
(worker-daemon.py `dequeue_task`, `mark_task_completed`,
`mark_task_failed`, as driven by `run`).  `rpoplpush` moves the rightmost
queue entry to the head of the active list; when the payload fails JSON
parsing, `dequeue_task` returns `None` and the daemon goes back to polling
with the payload left on the active list. -/
inductive DStep : WorkerState × Mode → WorkerState × Mode → Prop
  | dequeueTask (s : WorkerState) (q : List Payload) (t : Task)
      (h : s.queue = q ++ [Payload.task t]) :
      DStep (s, Mode.idle)
        ({ s with queue := q, active := Payload.task t :: s.active }, Mode.running t)
  | dequeueMalformed (s : WorkerState) (q : List Payload) (raw : String)
      (h : s.queue = q ++ [Payload.malformed raw]) :
      DStep (s, Mode.idle)
        ({ s with queue := q, active := Payload.malformed raw :: s.active }, Mode.idle)
  | completeTask (s : WorkerState) (t : Task) (result : String) :
      DStep (s, Mode.running t) (markTaskCompleted s t result, Mode.idle)
  | failTask (s : WorkerState) (t : Task) (error : String) :
      DStep (s, Mode.running t) (markTaskFailed s t error, Mode.idle)

/-- Reachability under daemon steps. -/
inductive Reach (a : WorkerState × Mode) : WorkerState × Mode → Prop
  | refl : Reach a a
  | step (b c : WorkerState × Mode) : Reach a b → DStep b c → Reach a c

/-- The id carried by a payload, when it parses. -/
def payloadId : Payload → Option String
  | .task t => some t.id
  | .malformed _ => none

/-- Ids of the well-formed payloads of a list. -/
def queueIds (l : List Payload) : List String := l.filterMap payloadId

/-- A queue is well formed when every payload parses to a task and the
task ids are pairwise distinct (the data model declares ids unique). -/
def QueueWF (l : List Payload) : Prop :=
  (∀ p ∈ l, (payloadId p).isSome = true) ∧ (queueIds l).Nodup

/-- The daemon's startup state over a given queue: nothing active, no
terminal records. -/
def initState (q : List Payload) : WorkerState :=
  { queue := q, active := [], completed := [], failed := [] }

/-- The property claimed of every reachable state: at most one entry in
the active slot, and no task present in both the queue and the active
slot. -/
def ActiveInv (s : WorkerState) : Prop :=
  s.active.length ≤ 1 ∧ ∀ t : Task, Payload.task t ∈ s.active → Payload.task t ∉ s.queue

/-- Inductive strengthening of `ActiveInv`: the queue stays well formed,
the active list is empty while idle and exactly the running task while
executing, and the running task is no longer in the queue. -/
def StrongInv : WorkerState × Mode → Prop
  | (s, Mode.idle) => QueueWF s.queue ∧ s.active = []
  | (s, Mode.running t) =>
      QueueWF s.queue ∧ s.active = [Payload.task t] ∧ t.id ∉ queueIds s.queue

end Hive

/-! ## Theorems -/

/-- Claim C8 (counterexample): the direct-API variant does not map content
blocks unchanged — a `tool_use` network block with id `toolu_01`, name
`bash` and an input is reduced to `{type: "tool_use", text: ""}`; its id,
name and input are absent from the returned content. -/
theorem anthropic_toolUse_fields_dropped :
    anthropicSendMessage
        { content := [{ ty := "tool_use", id := some "toolu_01", name := some "bash",
                        input := some [("command", JVal.str "ls")] }],
          stopReason := "tool_use", usage := { inputTokens := 12, outputTokens := 34 } }
      = { content := [{ ty := "tool_use", text := some "" }],
          stopReason := "tool_use", usage := { inputTokens := 12, outputTokens := 34 } }
    ∧ ∀ b ∈ (anthropicSendMessage
        { content := [{ ty := "tool_use", id := some "toolu_01", name := some "bash",
                        input := some [("command", JVal.str "ls")] }],
          stopReason := "tool_use", usage := { inputTokens := 12, outputTokens := 34 } }).content,
        b.id = none ∧ b.name = none ∧ b.input = none := by
  exact ⟨rfl, by decide⟩

/-- Claim C8 (amended): `AnthropicAPIBackend.send_message` passes
`stop_reason` and `usage` through unchanged, but maps each content block
to its type plus its `text` attribute (empty when absent); `tool_use`
blocks therefore lose their id, name and input. -/
theorem anthropic_maps_stop_usage_and_text (r : SdkResponse) :
    (anthropicSendMessage r).stopReason = r.stopReason
    ∧ (anthropicSendMessage r).usage = r.usage
    ∧ (anthropicSendMessage r).content
        = r.content.map (fun b => { ty := b.ty, text := some (b.text.getD "") }) := by
  exact ⟨rfl, rfl, rfl⟩

/-- Claim C4 (counterexample): the local-process CLI variant returns
`stop_reason = "end_turn"` even when the streamed events show the model
requesting a tool call (an assistant event whose content holds a
`tool_use` block), contradicting the claim that every variant emits
`tool_use` in that case. -/
theorem cli_returns_endTurn_on_toolUse_request :
    (cliSendMessage
        [CliLine.json (CliEvent.assistant
          [{ ty := "tool_use", id := some "toolu_01", name := some "bash",
             input := some [("command", JVal.str "ls")] }])] 0).map
        (fun res => res.stopReason)
      = .ok "end_turn"
    ∧ "end_turn" ≠ "tool_use" := by
  constructor
  · rfl
  · decide

/-- Claim C4 (amended): the direct-API and managed-cloud variants return
the model's `stop_reason` unchanged (so `tool_use` exactly when the model
requested tool calls and `end_turn` on a final answer), while the
local-process CLI variant always returns `stop_reason = "end_turn"` with a
single text block, whatever the stream contained. -/
theorem backends_stop_reason_contract :
    (∀ r : SdkResponse, (anthropicSendMessage r).stopReason = r.stopReason)
    ∧ (∀ b : BedrockBody, (bedrockSendMessage b).stopReason = b.stopReason)
    ∧ (∀ lines : List CliLine, ∃ res : CliResult,
        cliSendMessage lines 0 = .ok res ∧ res.stopReason = "end_turn") := by
  refine ⟨fun r => rfl, fun b => rfl, fun lines => ?_⟩
  refine ⟨{ content := [{ ty := "text", text := some (cliFinalText lines).trim }],
            stopReason := "end_turn",
            usage := { inputTokens := 0, outputTokens := 0 } }, ?_, rfl⟩
  simp [cliSendMessage]

/-- A parsed task present in a payload list contributes its id. -/
theorem hive_mem_queueIds (t : Hive.Task) (l : List Hive.Payload)
    (h : Hive.Payload.task t ∈ l) : t.id ∈ Hive.queueIds l := by
  exact List.mem_filterMap.mpr ⟨Hive.Payload.task t, h, rfl⟩

/-- One daemon step preserves the strengthened invariant. -/
theorem hive_strongInv_step (a b : Hive.WorkerState × Hive.Mode)
    (hstep : Hive.DStep a b) (hinv : Hive.StrongInv a) : Hive.StrongInv b := by
  cases hstep with
  | dequeueTask s q t h =>
      obtain ⟨⟨hwf, hnd⟩, hact⟩ := hinv
      have hids : Hive.queueIds s.queue = Hive.queueIds q ++ [t.id] := by
        simp [Hive.queueIds, h, List.filterMap_append, Hive.payloadId]
      rw [hids, List.nodup_append] at hnd
      refine ⟨⟨?_, hnd.1⟩, ?_, ?_⟩
      · intro p hp
        exact hwf p (by rw [h]; exact List.mem_append_left _ hp)
      · rw [hact]
      · exact fun hmem => hnd.2.2 hmem (List.mem_singleton_self _)
  | dequeueMalformed s q raw h =>
      obtain ⟨⟨hwf, _⟩, _⟩ := hinv
      have : Hive.Payload.malformed raw ∈ s.queue := by
        rw [h]; exact List.mem_append_right _ (List.mem_singleton_self _)
      have := hwf _ this
      simp [Hive.payloadId] at this
  | completeTask s t result =>
      obtain ⟨hwf, hact, _⟩ := hinv
      refine ⟨hwf, ?_⟩
      simp [Hive.markTaskCompleted, hact]
  | failTask s t e =>
      obtain ⟨hwf, hact, _⟩ := hinv
      refine ⟨hwf, ?_⟩
      simp [Hive.markTaskFailed, hact]

/-- The strengthened invariant holds at every reachable state. -/
theorem hive_strongInv_reach (a b : Hive.WorkerState × Hive.Mode)
    (h : Hive.Reach a b) (ha : Hive.StrongInv a) : Hive.StrongInv b := by
  induction h with
  | refl => exact ha
  | step b c _ hs ih => exact hive_strongInv_step _ _ hs ih

/-- The strengthened invariant entails the claimed active-slot property. -/
theorem hive_activeInv_of_strongInv (s : Hive.WorkerState) (m : Hive.Mode)
    (h : Hive.StrongInv (s, m)) : Hive.ActiveInv s := by
  cases m with
  | idle =>
      obtain ⟨_, hact⟩ := h
      refine ⟨by rw [hact]; decide, ?_⟩
      intro t hmem
      rw [hact] at hmem
      exact absurd hmem (List.not_mem_nil _)
  | running t =>
      obtain ⟨_, hact, hid⟩ := h
      refine ⟨by rw [hact]; simp, ?_⟩
      intro u hmem hq
      rw [hact, List.mem_singleton] at hmem
      cases hmem
      exact hid (hive_mem_queueIds _ _ hq)

/-- Claim C2 (counterexample): the active slot is not limited to one task
at every reachable state.  Starting from a queue holding a malformed
payload followed by two tasks, the daemon moves the malformed payload to
the active list and leaves it there (`dequeue_task` returns `None` after
the `rpoplpush`); completing the next task then `rpop`s the malformed
entry instead of the task, and after one more dequeue the active list
holds two tasks at once. -/
theorem hive_two_tasks_in_active_slot :
    Hive.Reach
      (Hive.initState [Hive.Payload.task { id := "t3" }, Hive.Payload.task { id := "t2" },
                       Hive.Payload.malformed "not json"], Hive.Mode.idle)
      ({ queue := [],
         active := [Hive.Payload.task { id := "t3" }, Hive.Payload.task { id := "t2" }],
         completed := [({ id := "t2" }, "ok")], failed := [] },
       Hive.Mode.running { id := "t3" })
    ∧ ¬ Hive.ActiveInv
      { queue := [],
        active := [Hive.Payload.task { id := "t3" }, Hive.Payload.task { id := "t2" }],
        completed := [({ id := "t2" }, "ok")], failed := [] } := by
  constructor
  · have h1 : Hive.DStep
        (Hive.initState [Hive.Payload.task { id := "t3" }, Hive.Payload.task { id := "t2" },
                         Hive.Payload.malformed "not json"], Hive.Mode.idle)
        ({ queue := [Hive.Payload.task { id := "t3" }, Hive.Payload.task { id := "t2" }],
           active := [Hive.Payload.malformed "not json"],
           completed := [], failed := [] }, Hive.Mode.idle) :=
      Hive.DStep.dequeueMalformed _
        [Hive.Payload.task { id := "t3" }, Hive.Payload.task { id := "t2" }] "not json" rfl
    have h2 : Hive.DStep
        ({ queue := [Hive.Payload.task { id := "t3" }, Hive.Payload.task { id := "t2" }],
           active := [Hive.Payload.malformed "not json"],
           completed := [], failed := [] }, Hive.Mode.idle)
        ({ queue := [Hive.Payload.task { id := "t3" }],
           active := [Hive.Payload.task { id := "t2" }, Hive.Payload.malformed "not json"],
           completed := [], failed := [] }, Hive.Mode.running { id := "t2" }) :=
      Hive.DStep.dequeueTask _ [Hive.Payload.task { id := "t3" }] { id := "t2" } rfl
    have h3 : Hive.DStep
        ({ queue := [Hive.Payload.task { id := "t3" }],
           active := [Hive.Payload.task { id := "t2" }, Hive.Payload.malformed "not json"],
           completed := [], failed := [] }, Hive.Mode.running { id := "t2" })
        ({ queue := [Hive.Payload.task { id := "t3" }],
           active := [Hive.Payload.task { id := "t2" }],
           completed := [({ id := "t2" }, "ok")], failed := [] }, Hive.Mode.idle) :=
      Hive.DStep.completeTask _ { id := "t2" } "ok"
    have h4 : Hive.DStep
        ({ queue := [Hive.Payload.task { id := "t3" }],
           active := [Hive.Payload.task { id := "t2" }],
           completed := [({ id := "t2" }, "ok")], failed := [] }, Hive.Mode.idle)
        ({ queue := [],
           active := [Hive.Payload.task { id := "t3" }, Hive.Payload.task { id := "t2" }],
           completed := [({ id := "t2" }, "ok")], failed := [] },
         Hive.Mode.running { id := "t3" }) :=
      Hive.DStep.dequeueTask _ [] { id := "t3" } rfl
    exact Hive.Reach.step _ _
      (Hive.Reach.step _ _ (Hive.Reach.step _ _
        (Hive.Reach.step _ _ Hive.Reach.refl h1) h2) h3) h4
  · intro h
    exact absurd h.1 (by decide)

/-- Claim C2 (amended): provided every payload in the queue parses to a
task and task ids are pairwise distinct, then at every reachable state of
the worker the active slot holds at most one entry and no task is
simultaneously in the queue and the active slot; dequeue, mark-completed
and mark-failed all preserve this.  (Without the parsing proviso a
malformed payload is left on the active list and the property fails, see
the counterexample.) -/
theorem hive_active_slot_invariant (q : List Hive.Payload) (s : Hive.WorkerState)
    (m : Hive.Mode) (hwf : Hive.QueueWF q)
    (hr : Hive.Reach (Hive.initState q, Hive.Mode.idle) (s, m)) :
    Hive.ActiveInv s :=
  hive_activeInv_of_strongInv s m (hive_strongInv_reach _ _ hr ⟨hwf, rfl⟩)

/-- Witness for the amended C2 theorem: a concrete one-task queue, after
the dequeue step, satisfies the invariant. -/
theorem hive_active_slot_invariant_witness :
    Hive.ActiveInv { queue := [], active := [Hive.Payload.task { id := "t1" }],
                     completed := [], failed := [] } :=
  hive_active_slot_invariant [Hive.Payload.task { id := "t1" }] _
    (Hive.Mode.running { id := "t1" })
    ⟨by decide, by decide⟩
    (Hive.Reach.step _ _ Hive.Reach.refl
      (Hive.DStep.dequeueTask _ [] { id := "t1" } rfl))

/-- A concrete environment used to instantiate witnesses and
counterexamples: every path exists and is a file, reads succeed, and every
bash invocation times out. -/
def oracleEnv : Env :=
  { workspace := "/workspace", agentId := "drone-1",
    pathExists := fun _ => true, isFile := fun _ => true,
    readTry := fun _ _ _ => .ok "     1\thello\n",
    editTry := fun _ _ _ _ => .ok "✓ Replaced 1 occurrence(s) in a.txt",
    writeTry := fun _ => .ok (),
    bashRun := fun _ _ => .timedOut,
    compileRegex := fun _ => .ok (),
    globFiles := fun _ => [], scanFile := fun _ _ => [],
    globTry := fun _ => .ok [],
    hiveAssignTry := fun _ _ _ _ => .error "boom",
    hiveStatusTry := .error "boom", hiveFailedTry := .error "boom",
    hiveConfigTry := fun _ _ => .error "boom",
    hiveMyTasksTry := .error "boom", hiveTakeTaskTry := .error "boom",
    hiveTaskDoneTry := fun _ => .error "boom",
    hiveTaskFailedTry := fun _ => .error "boom" }

/-- When every tool call of a block list either succeeds or fails with the
typed error, the walk over the blocks yields exactly one `tool_result`
block per `tool_use` block, carrying the originating block's id, in the
same order. -/
theorem toolResultsFor_ok (exec : ToolExec) :
    ∀ blocks : List Block,
      (∀ b ∈ blocks, b.ty = "tool_use" → isOkOrTEE (exec b.name b.input) = true) →
      ∃ results, toolResultsFor exec blocks = .ok results
        ∧ results.map (fun b => b.toolUseId)
            = (blocks.filter (fun b => b.ty == "tool_use")).map (fun b => b.id)
        ∧ ∀ b ∈ results, b.ty = "tool_result" := by
  intro blocks
  induction blocks with
  | nil => exact fun _ => ⟨[], rfl, rfl, by simp⟩
  | cons b bs ih =>
      intro h
      obtain ⟨rs, h1, h2, h3⟩ := ih (fun x hx => h x (List.mem_cons_of_mem b hx))
      by_cases hb : b.ty = "tool_use"
      · have hob := h b (List.mem_cons_self b bs) hb
        cases hexec : exec b.name b.input with
        | ok v =>
            refine ⟨{ ty := "tool_result", toolUseId := b.id,
                      content := some (formatToolValue v) } :: rs, ?_, ?_, ?_⟩
            · simp [toolResultsFor, hb, hexec, h1, Except.map]
            · simp [List.filter_cons, hb, h2]
            · intro x hx
              rcases List.mem_cons.mp hx with hx | hx
              · rw [hx]
              · exact h3 x hx
        | error e =>
            cases e with
            | toolExecutionError m =>
                refine ⟨{ ty := "tool_result", toolUseId := b.id,
                          content := some ("Error: " ++ m), isError := some true } :: rs,
                        ?_, ?_, ?_⟩
                · simp [toolResultsFor, hb, hexec, h1, Except.map]
                · simp [List.filter_cons, hb, h2]
                · intro x hx
                  rcases List.mem_cons.mp hx with hx | hx
                  · rw [hx]
                  · exact h3 x hx
            | attributeError m => rw [hexec] at hob; simp [isOkOrTEE] at hob
            | typeError m => rw [hexec] at hob; simp [isOkOrTEE] at hob
      · refine ⟨rs, ?_, ?_, h3⟩
        · simp [toolResultsFor, hb, h1]
        · simp [List.filter_cons, hb, h2]

/-- Once `iteration` has reached the cap, the loop exits with the
iteration-budget error without consuming a response. -/
theorem execLoop_at_cap (exec : ToolExec) (maxIterations iteration : Nat)
    (messages : List Message) (rs : List BackendResponse)
    (h : maxIterations ≤ iteration) :
    execLoop exec maxIterations iteration messages rs
      = { outcome := .failed (capErr maxIterations), iterations := iteration,
          messages := messages } := by
  have hn : ¬ iteration < maxIterations := Nat.not_lt.mpr h
  cases rs <;> simp [execLoop, hn]

/-- One `tool_use` iteration whose tool calls all stay within the typed
error contract appends the assistant message and the tool-result user
message and continues the loop. -/
theorem execLoop_toolUse_step (exec : ToolExec) (maxIterations iteration : Nat)
    (messages : List Message) (r : BackendResponse) (rest : List BackendResponse)
    (results : List Block)
    (hlt : iteration < maxIterations) (hstop : r.stopReason = "tool_use")
    (hres : toolResultsFor exec r.content = .ok results) :
    execLoop exec maxIterations iteration messages (r :: rest)
      = execLoop exec maxIterations (iteration + 1)
          (messages ++ [{ role := "assistant", content := .blocks r.content },
                        { role := "user", content := .blocks results }]) rest := by
  simp [execLoop, hlt, hstop, hres]

/-- One `end_turn` iteration strictly below the cap completes the task
with the concatenated text. -/
theorem execLoop_endTurn_step (exec : ToolExec) (maxIterations iteration : Nat)
    (messages : List Message) (r : BackendResponse) (rest : List BackendResponse)
    (hlt : iteration + 1 < maxIterations) (hstop : r.stopReason = "end_turn") :
    execLoop exec maxIterations iteration messages (r :: rest)
      = { outcome := .completed (finalizeResult (concatTexts r.content)),
          iterations := iteration + 1,
          messages := messages
            ++ [{ role := "assistant", content := .blocks r.content }] } := by
  have h0 : iteration < maxIterations := Nat.lt_of_succ_lt hlt
  have h1 : ¬ maxIterations ≤ iteration + 1 := Nat.not_le.mpr hlt
  simp [execLoop, h0, hstop, h1]

/-- The loop runs through a prefix of `tool_use` responses, adding one
iteration per response. -/
theorem execLoop_toolUse_chain (exec : ToolExec) (maxIterations : Nat) :
    ∀ (pre : List BackendResponse) (iteration : Nat) (messages : List Message)
      (rs : List BackendResponse),
      (∀ r ∈ pre, r.stopReason = "tool_use") →
      (∀ r ∈ pre, ∀ b ∈ r.content, b.ty = "tool_use" →
        isOkOrTEE (exec b.name b.input) = true) →
      iteration + pre.length ≤ maxIterations →
      ∃ messages2,
        execLoop exec maxIterations iteration messages (pre ++ rs)
          = execLoop exec maxIterations (iteration + pre.length) messages2 rs := by
  intro pre
  induction pre with
  | nil => exact fun it msgs rs _ _ _ => ⟨msgs, by simp⟩
  | cons r pre ih =>
      intro it msgs rs hstop hexec hle
      obtain ⟨results, hres, _, _⟩ :=
        toolResultsFor_ok exec r.content (hexec r (List.mem_cons_self r pre))
      have hlen : (r :: pre).length = pre.length + 1 := List.length_cons r pre
      have hlt : it < maxIterations := by rw [hlen] at hle; omega
      have hstep := execLoop_toolUse_step exec maxIterations it msgs r (pre ++ rs) results
        hlt (hstop r (List.mem_cons_self r pre)) hres
      rw [List.cons_append, hstep]
      obtain ⟨m2, h2⟩ := ih (it + 1) _ rs
        (fun x hx => hstop x (List.mem_cons_of_mem r hx))
        (fun x hx => hexec x (List.mem_cons_of_mem r hx))
        (by rw [hlen] at hle; omega)
      refine ⟨m2, ?_⟩
      rw [h2, show it + 1 + pre.length = it + (r :: pre).length from by rw [hlen]; omega]

/-- Claim C1 (counterexample): a `tool_use` iteration is not always
answered block-for-block.  With a response holding two `tool_use` blocks
whose first one calls `read` with a non-string `file_path`, the executor
raises `AttributeError` (not the typed error), the per-call handler does
not catch it, and the whole iteration aborts: the task fails, no
`tool_result` block is produced for either `tool_use` block, and no new
user message is appended. -/
theorem loop_toolUse_iteration_aborted_by_untyped_error :
    executeTask (daemonExecuteTool oracleEnv) 50 "TASK"
        [{ content := [{ ty := "tool_use", id := some "tu_1", name := some "read",
                         input := some [("file_path", JVal.num 123)] },
                       { ty := "tool_use", id := some "tu_2", name := some "read",
                         input := some [("file_path", JVal.str "a.txt")] }],
           stopReason := "tool_use" }]
      = { outcome := .failed "Execution failed: int object has no attribute startswith",
          iterations := 1,
          messages := [{ role := "user", content := .ofString "TASK" },
                       { role := "assistant", content := .blocks
                          [{ ty := "tool_use", id := some "tu_1", name := some "read",
                             input := some [("file_path", JVal.num 123)] },
                           { ty := "tool_use", id := some "tu_2", name := some "read",
                             input := some [("file_path", JVal.str "a.txt")] }] }] }
    ∧ ((executeTask (daemonExecuteTool oracleEnv) 50 "TASK"
        [{ content := [{ ty := "tool_use", id := some "tu_1", name := some "read",
                         input := some [("file_path", JVal.num 123)] },
                       { ty := "tool_use", id := some "tu_2", name := some "read",
                         input := some [("file_path", JVal.str "a.txt")] }],
           stopReason := "tool_use" }]).messages.filter
        (fun msg => msg.role == "user")).length = 1 := by
  exact ⟨rfl, rfl⟩

/-- Claim C1 (amended): in every agent-loop iteration whose response has
stop reason `tool_use` and whose tool executions all stay within the
typed-error contract, the loop executes the `tool_use` blocks in order and
appends exactly one `tool_result` block per `tool_use` block — with
`tool_use_id` equal to the originating block's id, in the same relative
order — gathered into one new user message, then continues the loop. -/
theorem loop_toolUse_iteration_appends_results (exec : ToolExec)
    (maxIterations iteration : Nat) (messages : List Message)
    (r : BackendResponse) (rest : List BackendResponse)
    (h1 : iteration < maxIterations) (h2 : r.stopReason = "tool_use")
    (h3 : ∀ b ∈ r.content, b.ty = "tool_use" → isOkOrTEE (exec b.name b.input) = true) :
    ∃ results,
      toolResultsFor exec r.content = .ok results
      ∧ execLoop exec maxIterations iteration messages (r :: rest)
          = execLoop exec maxIterations (iteration + 1)
              (messages ++ [{ role := "assistant", content := .blocks r.content },
                            { role := "user", content := .blocks results }]) rest
      ∧ results.map (fun b => b.toolUseId)
          = (r.content.filter (fun b => b.ty == "tool_use")).map (fun b => b.id)
      ∧ results.length = (r.content.filter (fun b => b.ty == "tool_use")).length
      ∧ ∀ b ∈ results, b.ty = "tool_result" := by
  obtain ⟨results, hres, hmap, hall⟩ := toolResultsFor_ok exec r.content h3
  refine ⟨results, hres, ?_, hmap, ?_, hall⟩
  · exact execLoop_toolUse_step exec maxIterations iteration messages r rest results h1 h2 hres
  · have := congrArg List.length hmap
    simpa using this

/-- Witness for the amended C1 theorem at a concrete iteration: one
`read` call that succeeds. -/
theorem loop_toolUse_iteration_appends_results_witness :
    ∃ results,
      toolResultsFor (daemonExecuteTool oracleEnv)
          [{ ty := "tool_use", id := some "tu_2", name := some "read",
             input := some [("file_path", JVal.str "a.txt")] }] = .ok results
      ∧ execLoop (daemonExecuteTool oracleEnv) 50 0 []
            [{ content := [{ ty := "tool_use", id := some "tu_2", name := some "read",
                             input := some [("file_path", JVal.str "a.txt")] }],
               stopReason := "tool_use" }]
          = execLoop (daemonExecuteTool oracleEnv) 50 1
              ([] ++ [{ role := "assistant", content := .blocks
                          [{ ty := "tool_use", id := some "tu_2", name := some "read",
                             input := some [("file_path", JVal.str "a.txt")] }] },
                      { role := "user", content := .blocks results }]) []
      ∧ results.map (fun b => b.toolUseId)
          = (([{ ty := "tool_use", id := some "tu_2", name := some "read",
                 input := some [("file_path", JVal.str "a.txt")] }] : List Block).filter
              (fun b => b.ty == "tool_use")).map (fun b => b.id)
      ∧ results.length
          = (([{ ty := "tool_use", id := some "tu_2", name := some "read",
                 input := some [("file_path", JVal.str "a.txt")] }] : List Block).filter
              (fun b => b.ty == "tool_use")).length
      ∧ ∀ b ∈ results, b.ty = "tool_result" :=
  loop_toolUse_iteration_appends_results (daemonExecuteTool oracleEnv) 50 0 []
    { content := [{ ty := "tool_use", id := some "tu_2", name := some "read",
                    input := some [("file_path", JVal.str "a.txt")] }],
      stopReason := "tool_use" } []
    (by decide) rfl (by decide)

/-- Claim C3 (code bug): an `end_turn` response arriving exactly on the
last iteration allowed by the cap does not complete the task.  With
`MAX_ITERATIONS = 1` and a first response of `end_turn` carrying the text
`All done`, the post-loop check `iteration >= max_iterations` raises the
iteration-budget error — right after the code logged task completion —
and `run` marks the task failed; with a cap of 2 the same response
completes the task with `All done`, and the failed record at the cap keeps
the budget error text. -/
theorem endTurn_at_cap_marked_failed :
    (executeTask (fun _ _ => .error (.toolExecutionError "unused")) 1 "TASK"
        [{ content := [{ ty := "text", text := some "All done" }],
           stopReason := "end_turn" }]).outcome
      = .failed (capErr 1)
    ∧ (executeTask (fun _ _ => .error (.toolExecutionError "unused")) 2 "TASK"
        [{ content := [{ ty := "text", text := some "All done" }],
           stopReason := "end_turn" }]).outcome
      = .completed "All done"
    ∧ (Hive.handleOutcome
        { queue := [], active := [Hive.Payload.task { id := "t1" }],
          completed := [], failed := [] } { id := "t1" } (.failed (capErr 1)))
      = { queue := [], active := [], completed := [],
          failed := [({ id := "t1" }, capErr 1)] } := by
  exact ⟨rfl, rfl, rfl⟩

/-- Claim C5: a response whose stop reason is neither `end_turn` nor
`tool_use` aborts the loop immediately (the `else` branch's log statement
evaluates `response.stop_reason` on a dict and raises, which the outer
handler converts into a task failure), and the task is recorded as failed,
never as completed. -/
theorem loop_unexpected_stop_aborts (exec : ToolExec)
    (maxIterations iteration : Nat) (messages : List Message)
    (r : BackendResponse) (rest : List BackendResponse)
    (ws : Hive.WorkerState) (t : Hive.Task)
    (h1 : iteration < maxIterations)
    (h2 : r.stopReason ≠ "end_turn") (h3 : r.stopReason ≠ "tool_use") :
    execLoop exec maxIterations iteration messages (r :: rest)
      = { outcome := .failed unexpectedStopErr, iterations := iteration + 1,
          messages := messages
            ++ [{ role := "assistant", content := .blocks r.content }] }
    ∧ (Hive.handleOutcome ws t (.failed unexpectedStopErr)).completed = ws.completed
    ∧ (t, unexpectedStopErr) ∈ (Hive.handleOutcome ws t (.failed unexpectedStopErr)).failed := by
  refine ⟨by simp [execLoop, h1, h2, h3], rfl, ?_⟩
  simp [Hive.handleOutcome, Hive.markTaskFailed]

/-- Witness for the C5 theorem: a concrete `max_tokens` stop reason. -/
theorem loop_unexpected_stop_aborts_witness :
    execLoop (fun _ _ => .error (.toolExecutionError "unused")) 50 0 []
        [{ content := [], stopReason := "max_tokens" }]
      = { outcome := .failed unexpectedStopErr, iterations := 1,
          messages := [] ++ [{ role := "assistant", content := .blocks [] }] }
    ∧ (Hive.handleOutcome
        { queue := [], active := [Hive.Payload.task { id := "t9" }],
          completed := [], failed := [] } { id := "t9" }
        (.failed unexpectedStopErr)).completed = []
    ∧ ({ id := "t9" }, unexpectedStopErr) ∈ (Hive.handleOutcome
        { queue := [], active := [Hive.Payload.task { id := "t9" }],
          completed := [], failed := [] } { id := "t9" }
        (.failed unexpectedStopErr)).failed :=
  loop_unexpected_stop_aborts (fun _ _ => .error (.toolExecutionError "unused")) 50 0 []
    { content := [], stopReason := "max_tokens" } []
    { queue := [], active := [Hive.Payload.task { id := "t9" }],
      completed := [], failed := [] } { id := "t9" }
    (by decide) (by decide) (by decide)

/-- Claim C6: when the first cap-many responses all request tool use (and
stay within the typed-error contract) and the stream is long enough, the
loop runs exactly `maxIterations` iterations, the task fails with the
iteration-budget error naming the budget, and marking it failed pops the
active slot and records the error. -/
theorem loop_iteration_budget_exhaustion (exec : ToolExec) (maxIterations : Nat)
    (responses : List BackendResponse) (userMessage : String)
    (ws : Hive.WorkerState) (t : Hive.Task)
    (h1 : ∀ r ∈ responses.take maxIterations, r.stopReason = "tool_use")
    (h2 : ∀ r ∈ responses.take maxIterations, ∀ b ∈ r.content, b.ty = "tool_use" →
        isOkOrTEE (exec b.name b.input) = true)
    (h3 : maxIterations ≤ responses.length)
    (h4 : ws.active = [Hive.Payload.task t]) :
    (executeTask exec maxIterations userMessage responses).outcome
      = .failed (capErr maxIterations)
    ∧ (executeTask exec maxIterations userMessage responses).iterations = maxIterations
    ∧ (Hive.handleOutcome ws t
        (executeTask exec maxIterations userMessage responses).outcome).active = []
    ∧ (t, capErr maxIterations) ∈ (Hive.handleOutcome ws t
        (executeTask exec maxIterations userMessage responses).outcome).failed := by
  have hlen : (responses.take maxIterations).length = maxIterations := by
    rw [List.length_take]; omega
  obtain ⟨m2, hchain⟩ := execLoop_toolUse_chain exec maxIterations
    (responses.take maxIterations) 0
    [{ role := "user", content := .ofString userMessage }]
    (responses.drop maxIterations) h1 h2 (by rw [hlen]; omega)
  have heq : executeTask exec maxIterations userMessage responses
      = { outcome := .failed (capErr maxIterations), iterations := maxIterations,
          messages := m2 } := by
    have hsplit : execLoop exec maxIterations 0
        [{ role := "user", content := .ofString userMessage }] responses
        = execLoop exec maxIterations 0
            [{ role := "user", content := .ofString userMessage }]
            (responses.take maxIterations ++ responses.drop maxIterations) := by
      rw [List.take_append_drop]
    have := hsplit.trans hchain
    rw [hlen, Nat.zero_add] at this
    exact this.trans (execLoop_at_cap exec maxIterations maxIterations m2 _ (Nat.le_refl _))
  rw [heq]
  refine ⟨rfl, rfl, ?_, ?_⟩
  · simp [Hive.handleOutcome, Hive.markTaskFailed, h4]
  · simp [Hive.handleOutcome, Hive.markTaskFailed]

/-- Witness for the C6 theorem: cap 1 and a single tool-use response with
no tool blocks. -/
theorem loop_iteration_budget_exhaustion_witness :
    (executeTask (fun _ _ => .error (.toolExecutionError "unused")) 1 "TASK"
        [{ content := [], stopReason := "tool_use" }]).outcome = .failed (capErr 1)
    ∧ (executeTask (fun _ _ => .error (.toolExecutionError "unused")) 1 "TASK"
        [{ content := [], stopReason := "tool_use" }]).iterations = 1
    ∧ (Hive.handleOutcome
        { queue := [], active := [Hive.Payload.task { id := "t6" }],
          completed := [], failed := [] } { id := "t6" }
        (executeTask (fun _ _ => .error (.toolExecutionError "unused")) 1 "TASK"
          [{ content := [], stopReason := "tool_use" }]).outcome).active = []
    ∧ ({ id := "t6" }, capErr 1) ∈ (Hive.handleOutcome
        { queue := [], active := [Hive.Payload.task { id := "t6" }],
          completed := [], failed := [] } { id := "t6" }
        (executeTask (fun _ _ => .error (.toolExecutionError "unused")) 1 "TASK"
          [{ content := [], stopReason := "tool_use" }]).outcome).failed :=
  loop_iteration_budget_exhaustion (fun _ _ => .error (.toolExecutionError "unused")) 1
    [{ content := [], stopReason := "tool_use" }] "TASK"
    { queue := [], active := [Hive.Payload.task { id := "t6" }],
      completed := [], failed := [] } { id := "t6" }
    (by decide) (by decide) (by decide) rfl

/-- Claim C7: a tool invocation failing with the typed tool-execution
error — the bash timeout included — becomes exactly one `tool_result`
block carrying `Error: <message>` and marked `is_error`; the loop then
continues with the next iteration, so a typed tool failure by itself never
fails the task. -/
theorem tool_error_becomes_error_result (exec : ToolExec)
    (maxIterations iteration : Nat) (messages : List Message)
    (r : BackendResponse) (rest : List BackendResponse) (results : List Block)
    (b : Block) (bs : List Block) (m : String)
    (env : Env) (cmd tmo : JVal)
    (hb : b.ty = "tool_use")
    (he : exec b.name b.input = .error (.toolExecutionError m))
    (hlt : iteration < maxIterations) (hstop : r.stopReason = "tool_use")
    (hres : toolResultsFor exec r.content = .ok results)
    (htimeout : env.bashRun cmd tmo = BashOutcome.timedOut) :
    toolResultsFor exec (b :: bs)
      = (toolResultsFor exec bs).map
          (fun rs2 => { ty := "tool_result", toolUseId := b.id,
                        content := some ("Error: " ++ m), isError := some true } :: rs2)
    ∧ execLoop exec maxIterations iteration messages (r :: rest)
        = execLoop exec maxIterations (iteration + 1)
            (messages ++ [{ role := "assistant", content := .blocks r.content },
                          { role := "user", content := .blocks results }]) rest
    ∧ Tools.bash env cmd tmo
        = .error (.toolExecutionError
            ("Command timed out after " ++ tmo.pyStr ++ "s: " ++ cmd.pyStr)) := by
  refine ⟨?_,
    execLoop_toolUse_step exec maxIterations iteration messages r rest results hlt hstop hres,
    ?_⟩
  · simp [toolResultsFor, hb, he]
  · simp [Tools.bash, htimeout]

/-- Witness for the C7 theorem: a bash call that times out after 5
seconds, inside a one-block tool-use iteration. -/
theorem tool_error_becomes_error_result_witness :
    toolResultsFor (daemonExecuteTool oracleEnv)
        [{ ty := "tool_use", id := some "tu_9", name := some "bash",
           input := some [("command", JVal.str "sleep 999"), ("timeout", JVal.num 5)] }]
      = (toolResultsFor (daemonExecuteTool oracleEnv) []).map
          (fun rs2 => { ty := "tool_result", toolUseId := some "tu_9",
                        content := some ("Error: " ++ "Command timed out after 5s: sleep 999"),
                        isError := some true } :: rs2)
    ∧ execLoop (daemonExecuteTool oracleEnv) 50 0 []
        [{ content := [{ ty := "tool_use", id := some "tu_9", name := some "bash",
                         input := some [("command", JVal.str "sleep 999"),
                                        ("timeout", JVal.num 5)] }],
           stopReason := "tool_use" }]
        = execLoop (daemonExecuteTool oracleEnv) 50 1
            ([] ++ [{ role := "assistant", content := .blocks
                        [{ ty := "tool_use", id := some "tu_9", name := some "bash",
                           input := some [("command", JVal.str "sleep 999"),
                                          ("timeout", JVal.num 5)] }] },
                    { role := "user", content := .blocks
                        [{ ty := "tool_result", toolUseId := some "tu_9",
                           content := some "Error: Command timed out after 5s: sleep 999",
                           isError := some true }] }]) []
    ∧ Tools.bash oracleEnv (JVal.str "sleep 999") (JVal.num 5)
        = .error (.toolExecutionError
            ("Command timed out after " ++ (JVal.num 5).pyStr ++ "s: "
              ++ (JVal.str "sleep 999").pyStr)) :=
  tool_error_becomes_error_result (daemonExecuteTool oracleEnv) 50 0 []
    { content := [{ ty := "tool_use", id := some "tu_9", name := some "bash",
                    input := some [("command", JVal.str "sleep 999"),
                                   ("timeout", JVal.num 5)] }],
      stopReason := "tool_use" } []
    [{ ty := "tool_result", toolUseId := some "tu_9",
       content := some "Error: Command timed out after 5s: sleep 999",
       isError := some true }]
    { ty := "tool_use", id := some "tu_9", name := some "bash",
      input := some [("command", JVal.str "sleep 999"), ("timeout", JVal.num 5)] }
    [] "Command timed out after 5s: sleep 999" oracleEnv
    (JVal.str "sleep 999") (JVal.num 5)
    rfl rfl (by decide) rfl rfl rfl

/-- Claim C10: when the loop reaches an `end_turn` response strictly
before the cap and the response's text blocks concatenate to the empty
string, `execute_task` returns the placeholder
`Task completed (no summary provided)` and the task is recorded completed
with that placeholder as its result. -/
theorem loop_empty_endTurn_placeholder (exec : ToolExec) (maxIterations : Nat)
    (pre : List BackendResponse) (r : BackendResponse) (rest : List BackendResponse)
    (userMessage : String) (ws : Hive.WorkerState) (t : Hive.Task)
    (h1 : ∀ p ∈ pre, p.stopReason = "tool_use")
    (h2 : ∀ p ∈ pre, ∀ b ∈ p.content, b.ty = "tool_use" →
        isOkOrTEE (exec b.name b.input) = true)
    (h3 : r.stopReason = "end_turn")
    (h4 : concatTexts r.content = "")
    (h5 : pre.length + 1 < maxIterations)
    (h6 : ws.active = [Hive.Payload.task t]) :
    (executeTask exec maxIterations userMessage (pre ++ r :: rest)).outcome
      = .completed "Task completed (no summary provided)"
    ∧ (Hive.handleOutcome ws t
        (executeTask exec maxIterations userMessage (pre ++ r :: rest)).outcome).completed
        = ws.completed ++ [(t, "Task completed (no summary provided)")]
    ∧ (Hive.handleOutcome ws t
        (executeTask exec maxIterations userMessage (pre ++ r :: rest)).outcome).active
        = [] := by
  obtain ⟨m2, hchain⟩ := execLoop_toolUse_chain exec maxIterations pre 0
    [{ role := "user", content := .ofString userMessage }] (r :: rest) h1 h2 (by omega)
  have hstep := execLoop_endTurn_step exec maxIterations (0 + pre.length) m2 r rest
    (by omega) h3
  have heq : executeTask exec maxIterations userMessage (pre ++ r :: rest)
      = { outcome := .completed (finalizeResult (concatTexts r.content)),
          iterations := 0 + pre.length + 1,
          messages := m2 ++ [{ role := "assistant", content := .blocks r.content }] } :=
    hchain.trans hstep
  rw [heq, h4]
  refine ⟨by simp [finalizeResult], ?_, ?_⟩
  · simp [finalizeResult, Hive.handleOutcome, Hive.markTaskCompleted]
  · simp [finalizeResult, Hive.handleOutcome, Hive.markTaskCompleted, h6]

/-- Witness for the C10 theorem: an immediate `end_turn` with no text
blocks under the default cap. -/
theorem loop_empty_endTurn_placeholder_witness :
    (executeTask (fun _ _ => .error (.toolExecutionError "unused")) 50 "TASK"
        ([] ++ [{ content := ([] : List Block), stopReason := "end_turn" }])).outcome
      = .completed "Task completed (no summary provided)"
    ∧ (Hive.handleOutcome
        { queue := [], active := [Hive.Payload.task { id := "t10" }],
          completed := [], failed := [] } { id := "t10" }
        (executeTask (fun _ _ => .error (.toolExecutionError "unused")) 50 "TASK"
          ([] ++ [{ content := ([] : List Block), stopReason := "end_turn" }])).outcome).completed
        = [] ++ [({ id := "t10" }, "Task completed (no summary provided)")]
    ∧ (Hive.handleOutcome
        { queue := [], active := [Hive.Payload.task { id := "t10" }],
          completed := [], failed := [] } { id := "t10" }
        (executeTask (fun _ _ => .error (.toolExecutionError "unused")) 50 "TASK"
          ([] ++ [{ content := ([] : List Block), stopReason := "end_turn" }])).outcome).active
        = [] :=
  loop_empty_endTurn_placeholder (fun _ _ => .error (.toolExecutionError "unused")) 50
    [] { content := [], stopReason := "end_turn" } [] "TASK"
    { queue := [], active := [Hive.Payload.task { id := "t10" }],
      completed := [], failed := [] } { id := "t10" }
    (by decide) (by decide) rfl rfl (by decide) rfl

/-- Whether a value is a Python string. -/
def JVal.isString : JVal → Bool
  | .str _ => true
  | _ => false

/-- A string-valued `JVal` is literally a `.str`. -/
theorem isString_exists (v : JVal) (h : v.isString = true) : ∃ s, v = .str s := by
  cases v with
  | str s => exact ⟨s, rfl⟩
  | num n => simp [JVal.isString] at h
  | bool b => simp [JVal.isString] at h
  | null => simp [JVal.isString] at h

/-- `Tools.read` on a string path only returns or raises the typed error. -/
theorem read_ok_or_typed (env : Env) (fp : String) (offset limit : JVal) :
    isOkOrTEE (Tools.read env (.str fp) offset limit) = true := by
  simp only [Tools.read]
  split_ifs with h1 h2 <;>
    first
      | rfl
      | (cases hr : env.readTry (resolvePath env.workspace fp) offset limit <;>
          simp [hr, isOkOrTEE])

/-- `Tools.edit` on a string path only returns or raises the typed error. -/
theorem edit_ok_or_typed (env : Env) (fp : String) (o n ra : JVal) :
    isOkOrTEE (Tools.edit env (.str fp) o n ra) = true := by
  simp only [Tools.edit]
  split_ifs with h1 <;>
    first
      | rfl
      | (cases he : env.editTry (resolvePath env.workspace fp) o n ra with
          | ok s => simp [he, isOkOrTEE]
          | error e => cases e <;> simp [he, isOkOrTEE])

/-- `Tools.write` on a string path only returns or raises the typed error. -/
theorem write_ok_or_typed (env : Env) (fp : String) (content : JVal) :
    isOkOrTEE (Tools.write env (.str fp) content) = true := by
  simp only [Tools.write]
  cases hw : env.writeTry (resolvePath env.workspace fp) with
  | error m => simp [hw, isOkOrTEE]
  | ok u => cases content <;> simp [hw, isOkOrTEE]

/-- `Tools.bash` only returns or raises the typed error, whatever the
input values. -/
theorem bash_ok_or_typed (env : Env) (cmd tmo : JVal) :
    isOkOrTEE (Tools.bash env cmd tmo) = true := by
  simp only [Tools.bash]
  cases env.bashRun cmd tmo <;> rfl

/-- `Tools.grep` on string pattern/path/glob only returns or raises the
typed error. -/
theorem grep_ok_or_typed (env : Env) (pat p g : String) (ci ctx : JVal) :
    isOkOrTEE (Tools.grep env (.str pat) (.str p) (.str g) ci ctx) = true := by
  simp only [Tools.grep]
  split_ifs with h1 h2 <;>
    first
      | rfl
      | (cases hc : env.compileRegex pat <;> simp [hc, isOkOrTEE])

/-- `Tools.glob` on a string path only returns or raises the typed error. -/
theorem glob_ok_or_typed (env : Env) (pattern : JVal) (p : String) :
    isOkOrTEE (Tools.glob env pattern (.str p)) = true := by
  simp only [Tools.glob]
  split_ifs with h1 <;>
    first
      | rfl
      | (cases pattern with
          | str g =>
              cases hg : env.globTry (joinPath (resolvePath env.workspace p) g) <;>
                simp [hg, isOkOrTEE]
          | num n => rfl
          | bool b => rfl
          | null => rfl)

/-- A wrapped HIVE tool body only returns or raises the typed error. -/
theorem hiveWrap_ok_or_typed (toolName : String) (body : Except String ToolValue) :
    isOkOrTEE (hiveWrap toolName body) = true := by
  cases body <;> rfl

/-- The agent-id precheck preserves the typed-error contract. -/
theorem requireAgent_ok_or_typed (env : Env) (body : Except PyError ToolValue)
    (h : isOkOrTEE body = true) : isOkOrTEE (requireAgent env body) = true := by
  unfold requireAgent
  split_ifs with h1
  · rfl
  · exact h

/-- `Tools.hiveConfig` only returns or raises the typed error. -/
theorem hiveConfig_ok_or_typed (env : Env) (key default : JVal) :
    isOkOrTEE (Tools.hiveConfig env key default) = true := by
  simp only [Tools.hiveConfig]
  cases env.hiveConfigTry key default <;> rfl

/-- An input conforms to the executor's schema on the fields whose
handling sits outside a catch-all: the path-like and pattern fields that
the prologues call string methods on must be strings. -/
def conformingInput (toolName : String) (input : ToolInput) : Bool :=
  if toolName = "read" then (input.getD "file_path" (.str "")).isString
  else if toolName = "edit" then (input.getD "file_path" (.str "")).isString
  else if toolName = "write" then (input.getD "file_path" (.str "")).isString
  else if toolName = "grep" then
    (input.getD "pattern" (.str "")).isString
      && (input.getD "path" (.str ".")).isString
      && (input.getD "glob" (.str "*")).isString
  else if toolName = "glob" then (input.getD "path" (.str ".")).isString
  else true

/-- Claim C9 (counterexample): `execute_tool` can let an exception other
than the typed tool-execution error reach its caller.  `read` with the
input mapping `{"file_path": 123}` evaluates `123.startswith('/')` before
entering any `try`, raising `AttributeError`. -/
theorem executeTool_raises_untyped_error :
    Tools.executeTool oracleEnv "read" [("file_path", JVal.num 123)]
      = .error (.attributeError "int object has no attribute startswith")
    ∧ isOkOrTEE (Tools.executeTool oracleEnv "read" [("file_path", JVal.num 123)]) = false := by
  exact ⟨rfl, rfl⟩

/-- Claim C9 (amended): for every tool name and every input mapping whose
schema-declared string fields (the path and pattern arguments handled
before the handlers' try blocks) are in fact strings, `execute_tool`
either returns a success value or raises the single typed
tool-execution error; no other exception kind reaches the caller. -/
theorem executeTool_ok_or_typed_error (env : Env) (toolName : String) (input : ToolInput)
    (h : conformingInput toolName input = true) :
    isOkOrTEE (Tools.executeTool env toolName input) = true := by
  by_cases h1 : toolName = "read"
  · subst h1
    simp [conformingInput] at h
    obtain ⟨s, hs⟩ := isString_exists _ h
    show isOkOrTEE (Tools.read env (input.getD "file_path" (.str ""))
      (input.getD "offset" (.num 0)) (input.getD "limit" .null)) = true
    rw [hs]
    exact read_ok_or_typed env s _ _
  by_cases h2 : toolName = "edit"
  · subst h2
    simp [conformingInput] at h
    obtain ⟨s, hs⟩ := isString_exists _ h
    show isOkOrTEE (Tools.edit env (input.getD "file_path" (.str ""))
      (input.getD "old_string" (.str "")) (input.getD "new_string" (.str ""))
      (input.getD "replace_all" (.bool false))) = true
    rw [hs]
    exact edit_ok_or_typed env s _ _ _
  by_cases h3 : toolName = "write"
  · subst h3
    simp [conformingInput] at h
    obtain ⟨s, hs⟩ := isString_exists _ h
    show isOkOrTEE (Tools.write env (input.getD "file_path" (.str ""))
      (input.getD "content" (.str ""))) = true
    rw [hs]
    exact write_ok_or_typed env s _
  by_cases h4 : toolName = "bash"
  · subst h4
    exact bash_ok_or_typed env (input.getD "command" (.str "")) (input.getD "timeout" (.num 120))
  by_cases h5 : toolName = "grep"
  · subst h5
    simp [conformingInput, Bool.and_eq_true] at h
    obtain ⟨⟨hpat, hpath⟩, hglob⟩ := h
    obtain ⟨sp, hsp⟩ := isString_exists _ hpat
    obtain ⟨s1, hs1⟩ := isString_exists _ hpath
    obtain ⟨s2, hs2⟩ := isString_exists _ hglob
    show isOkOrTEE (Tools.grep env (input.getD "pattern" (.str ""))
      (input.getD "path" (.str ".")) (input.getD "glob" (.str "*"))
      (input.getD "case_insensitive" (.bool false))
      (input.getD "context_lines" (.num 0))) = true
    rw [hsp, hs1, hs2]
    exact grep_ok_or_typed env sp s1 s2 _ _
  by_cases h6 : toolName = "glob"
  · subst h6
    simp [conformingInput] at h
    obtain ⟨s, hs⟩ := isString_exists _ h
    show isOkOrTEE (Tools.glob env (input.getD "pattern" (.str "*"))
      (input.getD "path" (.str "."))) = true
    rw [hs]
    exact glob_ok_or_typed env _ s
  by_cases h7 : toolName = "hive_assign"
  · subst h7
    exact hiveWrap_ok_or_typed "hive_assign"
      (env.hiveAssignTry (input.getD "drone_id" (.str "")) (input.getD "title" (.str ""))
        (input.getD "description" (.str "")) (input.getD "jira_ticket" .null))
  by_cases h8 : toolName = "hive_status"
  · subst h8
    exact hiveWrap_ok_or_typed "hive_status" env.hiveStatusTry
  by_cases h9 : toolName = "hive_failed"
  · subst h9
    exact hiveWrap_ok_or_typed "hive_failed" env.hiveFailedTry
  by_cases h10 : toolName = "hive_config"
  · subst h10
    exact hiveConfig_ok_or_typed env (input.getD "key" (.str "")) (input.getD "default" .null)
  by_cases h11 : toolName = "hive_my_tasks"
  · subst h11
    exact requireAgent_ok_or_typed env (hiveWrap "hive_my_tasks" env.hiveMyTasksTry)
      (hiveWrap_ok_or_typed _ _)
  by_cases h12 : toolName = "hive_take_task"
  · subst h12
    exact requireAgent_ok_or_typed env (hiveWrap "hive_take_task" env.hiveTakeTaskTry)
      (hiveWrap_ok_or_typed _ _)
  by_cases h13 : toolName = "hive_task_done"
  · subst h13
    exact requireAgent_ok_or_typed env
      (hiveWrap "hive_task_done" (env.hiveTaskDoneTry (input.getD "result" .null)))
      (hiveWrap_ok_or_typed _ _)
  by_cases h14 : toolName = "hive_task_failed"
  · subst h14
    exact requireAgent_ok_or_typed env
      (hiveWrap "hive_task_failed" (env.hiveTaskFailedTry (input.getD "error" (.str ""))))
      (hiveWrap_ok_or_typed _ _)
  simp [Tools.executeTool, h1, h2, h3, h4, h5, h6, h7, h8, h9, h10, h11, h12, h13, h14,
    isOkOrTEE]

/-- Witness for the amended C9 theorem: `read` with a string path. -/
theorem executeTool_ok_or_typed_error_witness :
    isOkOrTEE (Tools.executeTool oracleEnv "read" [("file_path", JVal.str "a.txt")]) = true :=
  executeTool_ok_or_typed_error oracleEnv "read" [("file_path", JVal.str "a.txt")] (by decide)
